import Mathlib

/-!
Formal model of `src/Splunk_Notification_3.py`, centred on the dispatch core
`send_automated_emails(df, sender_email, sender_password, cc_email, log_container)`.

The input DataFrame is modelled as a list of rows whose cells may be missing
(pandas `NaN` is `Option.none`).  The routine is modelled as a total function
from an SMTP fault environment (outcome of the login and of each send attempt)
to the ordered list of emitted log entries and the list of messages actually
handed to `smtp.send_message` — Python exceptions are modelled by non-`ok`
outcomes, and the `try/except/finally` structure by the explicit control flow
of `tryBody` and `send_automated_emails` below.
-/

/-- One record of the input table.  Each field is the cell of the column named
in the source: `site` is `Site Number` (the `groupby` key), `download` is
`DOWNLOAD`, `sdaStatus` is `SDA Status`, `email` is `Email`.  `none` models a
missing cell (pandas `NaN`); present cells are kept in string form. -/
structure Row where
  site : Option String
  download : Option String
  sdaStatus : Option String
  email : String
deriving DecidableEq, Repr

/-- Pandas `astype(str)` applied to one cell: a missing value (`NaN`) is
rendered as the string "nan"; a present value keeps its string form. -/
def cellStr : Option String → String
  | some s => s
  | none => "nan"

/-- Embedding of `.str.upper()` on a cell value (ASCII fragment of Python
`str.upper`, which is what the data in question exercises). -/
def upperStr (s : String) : String := ⟨s.data.map Char.toUpper⟩

/-- Code-point comparison of two character lists, the lexicographic order
Python uses for `str` and hence the key order of pandas `groupby(sort=True)`. -/
def charListLe : List Char → List Char → Bool
  | [], _ => true
  | _ :: _, [] => false
  | a :: as, b :: bs =>
    if a.toNat < b.toNat then true
    else if b.toNat < a.toNat then false
    else charListLe as bs

/-- Key order used when `df.groupby('Site Number')` sorts the group keys. -/
def strLe (a b : String) : Prop := charListLe a.data b.data = true

instance : DecidableRel strLe := fun a b =>
  inferInstanceAs (Decidable (charListLe a.data b.data = true))

instance : IsTotal String strLe := by
  have main : ∀ as bs : List Char, charListLe as bs = true ∨ charListLe bs as = true := by
    intro as
    induction as with
    | nil => intro bs; left; rfl
    | cons a as ih =>
      intro bs
      cases bs with
      | nil => right; rfl
      | cons b bs =>
        rcases Nat.lt_trichotomy a.toNat b.toNat with h | h | h
        · left; simp [charListLe, h]
        · rcases ih bs with hh | hh
          · left
            simp [charListLe, show ¬ a.toNat < b.toNat by omega,
              show ¬ b.toNat < a.toNat by omega, hh]
          · right
            simp [charListLe, show ¬ a.toNat < b.toNat by omega,
              show ¬ b.toNat < a.toNat by omega, hh]
        · right; simp [charListLe, h]
  exact ⟨fun a b => main a.data b.data⟩

instance : IsTrans String strLe := by
  have main : ∀ as bs cs : List Char, charListLe as bs = true →
      charListLe bs cs = true → charListLe as cs = true := by
    intro as
    induction as with
    | nil => intro bs cs _ _; rfl
    | cons a as ih =>
      intro bs cs h1 h2
      cases bs with
      | nil => simp [charListLe] at h1
      | cons b bs =>
        cases cs with
        | nil => simp [charListLe] at h2
        | cons c cs =>
          rcases Nat.lt_trichotomy a.toNat b.toNat with hab | hab | hab <;>
            rcases Nat.lt_trichotomy b.toNat c.toNat with hbc | hbc | hbc
          · simp [charListLe, show a.toNat < c.toNat by omega]
          · simp [charListLe, show a.toNat < c.toNat by omega]
          · simp [charListLe, show ¬ b.toNat < c.toNat by omega, hbc] at h2
          · simp [charListLe, show a.toNat < c.toNat by omega]
          · simp [charListLe, show ¬ a.toNat < b.toNat by omega,
              show ¬ b.toNat < a.toNat by omega] at h1
            simp [charListLe, show ¬ b.toNat < c.toNat by omega,
              show ¬ c.toNat < b.toNat by omega] at h2
            simp [charListLe, show ¬ a.toNat < c.toNat by omega,
              show ¬ c.toNat < a.toNat by omega]
            exact ih bs cs h1 h2
          · simp [charListLe, show ¬ b.toNat < c.toNat by omega, hbc] at h2
          · simp [charListLe, show ¬ a.toNat < b.toNat by omega, hab] at h1
          · simp [charListLe, show ¬ a.toNat < b.toNat by omega, hab] at h1
          · simp [charListLe, show ¬ a.toNat < b.toNat by omega, hab] at h1
  exact ⟨fun a b c h1 h2 => main a.data b.data c.data h1 h2⟩

/-- Distinct values of a list in order of first occurrence (pandas factorizes
group keys in appearance order before sorting them). -/
def firstOccur : List String → List String
  | [] => []
  | k :: ks => k :: (firstOccur ks).filter (fun x => x != k)

/-- Group keys of `df.groupby('Site Number')`: the distinct present `Site
Number` values, sorted (pandas `groupby` defaults to `sort=True`).  Rows whose
key cell is missing contribute no key: `groupby` drops `NaN` keys. -/
def siteKeys (df : List Row) : List String :=
  List.insertionSort strLe (firstOccur (df.filterMap (fun r => r.site)))

/-- Embedding of the iteration `for site_number, site_df in df.groupby('Site
Number')`: each sorted key paired with the rows carrying exactly that key, in
their original order. -/
def groupbySite (df : List Row) : List (String × List Row) :=
  (siteKeys df).map (fun k => (k, df.filter (fun r => r.site == some k)))

/-- LOGIC 1 test: `'YES' in site_df['DOWNLOAD'].astype(str).str.upper().unique()`.
Membership in the array of unique values holds exactly when some row's
stringified, uppercased `DOWNLOAD` cell equals "YES". -/
def siteSkipped (g : List Row) : Bool :=
  g.any (fun r => upperStr (cellStr r.download) == "YES")

/-- Test `'CREATION SUCCESSFUL' in site_df['SDA Status'].unique()`: some row
has `SDA Status` exactly equal to the literal (a missing cell never compares
equal). -/
def isAnyoneRegistered (g : List Row) : Bool :=
  g.any (fun r => r.sdaStatus == some "CREATION SUCCESSFUL")

def reminderSubject : String := "Reminder: Please Download Your File"

def reminderBody : String :=
  "Dear User,\n\nThis is a friendly reminder to please download the file associated with your account.\n\nThank you,\nAutomation Team"

def completeRegSubject : String := "Action Required: Please Complete Your Registration"

def completeRegBody : String :=
  "Dear User,\n\nOur records show you have not yet completed registration. Please register to gain access.\n\nThank you,\nAutomation Team"

def inviteSubject : String := "Action Required: Please Register"

def inviteBody : String :=
  "Dear User,\n\nThis email is to invite you to register for our platform. Please complete your registration at your earliest convenience.\n\nThank you,\nAutomation Team"

/-- One `EmailMessage` as filled in by the source: `From`, `To`, optional
`Cc`, `Subject`, and the body set by `set_content`. -/
structure Message where
  sender : String
  recipient : String
  cc : Option String
  subject : String
  body : String
deriving DecidableEq, Repr

/-- Translation of `if cc_email: msg['Cc'] = cc_email` — the empty string is
falsy in Python, so only a non-empty CC string yields a `Cc` header. -/
def mkCc (cc_email : String) : Option String :=
  if cc_email = "" then none else some cc_email

/-- Construction of the message for one row, given whether anyone in the
row's group is registered (LOGIC 2 and LOGIC 3 of the source). -/
def buildMessage (sender_email cc_email : String) (anyReg : Bool) (r : Row) : Message :=
  { sender := sender_email
    recipient := r.email
    cc := mkCc cc_email
    subject :=
      if anyReg then
        if r.sdaStatus == some "CREATION SUCCESSFUL" then reminderSubject else completeRegSubject
      else inviteSubject
    body :=
      if anyReg then
        if r.sdaStatus == some "CREATION SUCCESSFUL" then reminderBody else completeRegBody
      else inviteBody }

/-- Messages constructed for one site group on a fault-free run: none when the
group is skipped by LOGIC 1, otherwise one message per row. -/
def groupMessages (sender_email cc_email : String) (g : List Row) : List Message :=
  if siteSkipped g then []
  else g.map (buildMessage sender_email cc_email (isAnyoneRegistered g))

/-- Messages constructed for a list of site groups, in send order. -/
def flatMsgs (sender_email cc_email : String) (gs : List (String × List Row)) : List Message :=
  gs.flatMap (fun p => groupMessages sender_email cc_email p.2)

/-- Messages of a whole fault-free run, in send order. -/
def allMessages (sender_email cc_email : String) (df : List Row) : List Message :=
  flatMsgs sender_email cc_email (groupbySite df)

/-- Level of a log event, after the `log_container` method used to emit it. -/
inductive LogLevel
  | info
  | success
  | warning
  | error
  | markdown
deriving DecidableEq, Repr

/-- One log event: the `log_container` method called and the rendered text. -/
structure LogEntry where
  level : LogLevel
  text : String
deriving DecidableEq, Repr

def estabEntry : LogEntry :=
  ⟨.info, "Establishing secure connection with SMTP server..."⟩

def loginOkEntry : LogEntry := ⟨.success, "Login successful."⟩

def siteEntry (k : String) : LogEntry :=
  ⟨.markdown, s!"--- \n**Processing Site: {k}**"⟩

def skipEntry (k : String) : LogEntry :=
  ⟨.warning, s!"Site {k}: At least one user has downloaded. No emails will be sent."⟩

def sentEntry (e subj : String) : LogEntry :=
  ⟨.success, s!"Email sent to: {e} | Subject: \x27{subj}\x27"⟩

def authErrorEntry : LogEntry :=
  ⟨.error, "[AUTHENTICATION ERROR] Login failed. Please verify your credentials and ensure you are using a valid App Password."⟩

def unexpectedEntry (m : String) : LogEntry :=
  ⟨.error, s!"[UNEXPECTED ERROR] An error occurred: {m}"⟩

def finishedEntry : LogEntry :=
  ⟨.info, "--- Email sending process finished ---"⟩

/-- Outcome of one SMTP operation: normal return, `SMTPAuthenticationError`,
or any other exception carrying `str(e)`. -/
inductive SmtpOutcome
  | ok
  | authError
  | otherError (msg : String)
deriving DecidableEq, Repr

/-- Fault environment of one run: the outcome of connection/login, and the
outcome of the i-th send attempt (0-based over the whole run). -/
structure SmtpEnv where
  loginOutcome : SmtpOutcome
  sendOutcome : Nat → SmtpOutcome

/-- The fault-free environment: login and every send succeed. -/
def okEnv : SmtpEnv := ⟨.ok, fun _ => .ok⟩

/-- Which `except` clause a raised exception reaches. -/
inductive Abort
  | auth
  | other (msg : String)
deriving DecidableEq, Repr

def toAbort : SmtpOutcome → Option Abort
  | .ok => none
  | .authError => some .auth
  | .otherError m => some (.other m)

/-- Error log entry emitted by the `except` clause reached. -/
def abortEntry : Abort → LogEntry
  | .auth => authErrorEntry
  | .other m => unexpectedEntry m

/-- Result of a loop fragment: log entries emitted, messages sent, next send
attempt index, and the pending exception if one was raised. -/
structure LoopOut where
  log : List LogEntry
  sent : List Message
  next : Nat
  abort : Option Abort

/-- The inner `for index, row in site_df.iterrows()` loop: build the row's
message, send it, log success; a raised exception stops the loop at once (the
failing message is not recorded as sent and gets no success log line). -/
def sendLoop (env : SmtpEnv) (sender_email cc_email : String) (anyReg : Bool) :
    List Row → Nat → LoopOut
  | [], n => ⟨[], [], n, none⟩
  | r :: rs, n =>
    let msg := buildMessage sender_email cc_email anyReg r
    match env.sendOutcome n with
    | .ok =>
      let rest := sendLoop env sender_email cc_email anyReg rs (n + 1)
      ⟨sentEntry r.email msg.subject :: rest.log, msg :: rest.sent, rest.next, rest.abort⟩
    | .authError => ⟨[], [], n, some .auth⟩
    | .otherError m => ⟨[], [], n, some (.other m)⟩

/-- The outer `for site_number, site_df in df.groupby('Site Number')` loop:
log the group header, apply LOGIC 1 (`continue` on skip), otherwise run the
row loop; a pending exception propagates out of the loop. -/
def groupLoop (env : SmtpEnv) (sender_email cc_email : String) :
    List (String × List Row) → Nat → LoopOut
  | [], n => ⟨[], [], n, none⟩
  | (k, g) :: gs, n =>
    if siteSkipped g then
      let rest := groupLoop env sender_email cc_email gs n
      ⟨siteEntry k :: skipEntry k :: rest.log, rest.sent, rest.next, rest.abort⟩
    else
      let first := sendLoop env sender_email cc_email (isAnyoneRegistered g) g n
      match first.abort with
      | some ab => ⟨siteEntry k :: first.log, first.sent, first.next, some ab⟩
      | none =>
        let rest := groupLoop env sender_email cc_email gs first.next
        ⟨siteEntry k :: (first.log ++ rest.log), first.sent ++ rest.sent, rest.next, rest.abort⟩

/-- The `try` block together with its two `except` clauses: the connection
banner, login, the group loop, and the error entry of whichever `except`
clause a raised exception reaches.  Yields the log and the sent messages. -/
def tryBody (env : SmtpEnv) (df : List Row) (sender_email cc_email : String) :
    List LogEntry × List Message :=
  match env.loginOutcome with
  | .authError => ([estabEntry, authErrorEntry], [])
  | .otherError m => ([estabEntry, unexpectedEntry m], [])
  | .ok =>
    let res := groupLoop env sender_email cc_email (groupbySite df) 0
    match res.abort with
    | none => (estabEntry :: loginOkEntry :: res.log, res.sent)
    | some ab => (estabEntry :: loginOkEntry :: (res.log ++ [abortEntry ab]), res.sent)

/-- The whole routine: the `try/except` body, then the `finally` block, which
always appends the terminal log line. -/
def send_automated_emails (env : SmtpEnv) (df : List Row) (sender_email cc_email : String) :
    List LogEntry × List Message :=
  let body := tryBody env df sender_email cc_email
  (body.1 ++ [finishedEntry], body.2)

/-- Number of send attempts, among the first `len` starting at index `n`, that
succeed before the first failure (the whole of `len` when none fails). -/
def okRun (out : Nat → SmtpOutcome) : Nat → Nat → Nat
  | _, 0 => 0
  | n, len + 1 =>
    match out n with
    | .ok => okRun out (n + 1) len + 1
    | _ => 0

/-- Surrounding-whitespace removal, stated only to express the spec wording
"after trimming to a canonical uppercase string" of the skip rule; the source
itself applies no trim. -/
def specTrim (s : String) : String :=
  ⟨((s.data.dropWhile Char.isWhitespace).reverse.dropWhile Char.isWhitespace).reverse⟩

/-! ### Concrete example data (rows of the scenarios used below) -/

/-- Row of site "1" with `SDA Status` exactly "CREATION SUCCESSFUL". -/
def rowRegA : Row := ⟨some "1", some "no", some "CREATION SUCCESSFUL", "a@x.com"⟩

/-- Row of site "1" still pending registration. -/
def rowRegB : Row := ⟨some "1", some "no", some "PENDING", "b@x.com"⟩

/-- Row of site "2" whose `DOWNLOAD` cell is "YES". -/
def rowYesC : Row := ⟨some "2", some "YES", some "PENDING", "c@x.com"⟩

/-- Row of site "3" still pending registration. -/
def rowPendD : Row := ⟨some "3", some "no", some "PENDING", "d@x.com"⟩

/-- Second row of site "3" still pending registration. -/
def rowPendE : Row := ⟨some "3", some "no", some "PENDING", "e@x.com"⟩

/-- Row of site "7" whose `DOWNLOAD` cell is " yes " with surrounding blanks. -/
def rowTrim : Row := ⟨some "7", some " yes ", some "PENDING", "t@x.com"⟩

/-- Row of site "9" whose `DOWNLOAD` cell is missing. -/
def rowNan : Row := ⟨some "9", none, some "PENDING", "n@x.com"⟩

/-- Row whose `Site Number` cell is missing. -/
def noSiteRow : Row := ⟨none, some "no", some "PENDING", "m@x.com"⟩

/-- Row of site "B". -/
def rowSiteB : Row := ⟨some "B", some "no", some "PENDING", "p@x.com"⟩

/-- Row of site "A". -/
def rowSiteA : Row := ⟨some "A", some "no", some "PENDING", "q@x.com"⟩

/-- Environment whose second send attempt raises a generic exception. -/
def boomEnv : SmtpEnv := ⟨.ok, fun n => if n = 1 then .otherError "boom" else .ok⟩

/-- Environment whose login raises `SMTPAuthenticationError`. -/
def authEnv : SmtpEnv := ⟨.authError, fun _ => .ok⟩

/-! ### Basic facts about the fault counter `okRun` -/

theorem okRun_zero (out : Nat → SmtpOutcome) (n : Nat) : okRun out n 0 = 0 := rfl

theorem okRun_succ_ok (out : Nat → SmtpOutcome) (n len : Nat) (h : out n = .ok) :
    okRun out n (len + 1) = okRun out (n + 1) len + 1 := by
  simp [okRun, h]

theorem okRun_succ_fail (out : Nat → SmtpOutcome) (n len : Nat) (h : out n ≠ .ok) :
    okRun out n (len + 1) = 0 := by
  unfold okRun
  cases ho : out n with
  | ok => exact absurd ho h
  | authError => rfl
  | otherError m => rfl

theorem okRun_le (out : Nat → SmtpOutcome) : ∀ len n, okRun out n len ≤ len := by
  intro len
  induction len with
  | zero => intro n; simp [okRun_zero]
  | succ m ih =>
    intro n
    cases ho : out n with
    | ok => rw [okRun_succ_ok out n m ho]; exact Nat.succ_le_succ (ih (n + 1))
    | authError => rw [okRun_succ_fail out n m (by simp [ho])]; omega
    | otherError s => rw [okRun_succ_fail out n m (by simp [ho])]; omega

theorem okRun_fail_at (out : Nat → SmtpOutcome) :
    ∀ len n, okRun out n len < len → out (n + okRun out n len) ≠ .ok := by
  intro len
  induction len with
  | zero => intro n h; omega
  | succ m ih =>
    intro n h
    cases ho : out n with
    | ok =>
      rw [okRun_succ_ok out n m ho] at h ⊢
      have h2 := ih (n + 1) (by omega)
      have h3 : n + (okRun out (n + 1) m + 1) = n + 1 + okRun out (n + 1) m := by omega
      rw [h3]
      exact h2
    | authError =>
      rw [okRun_succ_fail out n m (by simp [ho])]
      simp [ho]
    | otherError s =>
      rw [okRun_succ_fail out n m (by simp [ho])]
      simp [ho]

theorem okRun_split (out : Nat → SmtpOutcome) :
    ∀ l1 n l2, okRun out n (l1 + l2)
      = if okRun out n l1 < l1 then okRun out n l1 else l1 + okRun out (n + l1) l2 := by
  intro l1
  induction l1 with
  | zero => intro n l2; simp [okRun_zero]
  | succ m ih =>
    intro n l2
    have h1 : m + 1 + l2 = (m + l2) + 1 := by omega
    rw [h1]
    cases ho : out n with
    | ok =>
      rw [okRun_succ_ok out n (m + l2) ho, okRun_succ_ok out n m ho, ih (n + 1) l2]
      have hle := okRun_le out m (n + 1)
      by_cases hc : okRun out (n + 1) m < m
      · rw [if_pos hc, if_pos (by omega)]
      · rw [if_neg hc, if_neg (by omega)]
        have h2 : n + 1 + m = n + (m + 1) := by omega
        rw [h2]
        omega
    | authError =>
      rw [okRun_succ_fail out n (m + l2) (by simp [ho]), okRun_succ_fail out n m (by simp [ho])]
      rw [if_pos (by omega)]
    | otherError s =>
      rw [okRun_succ_fail out n (m + l2) (by simp [ho]), okRun_succ_fail out n m (by simp [ho])]
      rw [if_pos (by omega)]

theorem okRun_all_ok (out : Nat → SmtpOutcome) :
    ∀ len n, (∀ j, j < len → out (n + j) = .ok) → okRun out n len = len := by
  intro len
  induction len with
  | zero => intro n _; rfl
  | succ m ih =>
    intro n h
    have h0 : out n = .ok := by simpa using h 0 (by omega)
    rw [okRun_succ_ok out n m h0]
    have := ih (n + 1) (fun j hj => by
      have := h (j + 1) (by omega)
      have e : n + (j + 1) = n + 1 + j := by omega
      rwa [e] at this)
    omega

theorem okRun_first_fail (out : Nat → SmtpOutcome) :
    ∀ k len n, k < len → (∀ j, j < k → out (n + j) = .ok) → out (n + k) ≠ .ok →
      okRun out n len = k := by
  intro k
  induction k with
  | zero =>
    intro len n hlen _ hfail
    cases len with
    | zero => omega
    | succ m => exact okRun_succ_fail out n m (by simpa using hfail)
  | succ i ih =>
    intro len n hlen hok hfail
    cases len with
    | zero => omega
    | succ m =>
      have h0 : out n = .ok := by simpa using hok 0 (by omega)
      rw [okRun_succ_ok out n m h0]
      have := ih m (n + 1) (by omega)
        (fun j hj => by
          have := hok (j + 1) (by omega)
          have e : n + (j + 1) = n + 1 + j := by omega
          rwa [e] at this)
        (by
          have e : n + (i + 1) = n + 1 + i := by omega
          rwa [e] at hfail)
      omega

/-! ### Characterization of the send and group loops under fault injection -/

theorem sendLoop_spec (env : SmtpEnv) (s c : String) (b : Bool) :
    ∀ rows n,
      (sendLoop env s c b rows n).sent
        = (rows.map (buildMessage s c b)).take (okRun env.sendOutcome n rows.length)
      ∧ (sendLoop env s c b rows n).next = n + okRun env.sendOutcome n rows.length
      ∧ (sendLoop env s c b rows n).abort
        = (if okRun env.sendOutcome n rows.length < rows.length
           then toAbort (env.sendOutcome (n + okRun env.sendOutcome n rows.length)) else none) := by
  intro rows
  induction rows with
  | nil =>
    intro n
    refine ⟨rfl, by simp [sendLoop, okRun_zero], by simp [sendLoop, okRun_zero]⟩
  | cons r rs ih =>
    intro n
    cases ho : env.sendOutcome n with
    | ok =>
      obtain ⟨h1, h2, h3⟩ := ih (n + 1)
      have hred : sendLoop env s c b (r :: rs) n
          = ⟨sentEntry r.email (buildMessage s c b r).subject
               :: (sendLoop env s c b rs (n + 1)).log,
             buildMessage s c b r :: (sendLoop env s c b rs (n + 1)).sent,
             (sendLoop env s c b rs (n + 1)).next,
             (sendLoop env s c b rs (n + 1)).abort⟩ := by
        simp [sendLoop, ho]
      have hlen : (r :: rs).length = rs.length + 1 := rfl
      rw [hred, hlen, okRun_succ_ok env.sendOutcome n rs.length ho]
      refine ⟨?_, ?_, ?_⟩
      · simp only [List.map_cons, List.take_succ_cons, h1]
      · rw [h2]; omega
      · rw [h3]
        by_cases hc : okRun env.sendOutcome (n + 1) rs.length < rs.length
        · rw [if_pos hc, if_pos (by omega)]
          have he : n + 1 + okRun env.sendOutcome (n + 1) rs.length
              = n + (okRun env.sendOutcome (n + 1) rs.length + 1) := by omega
          rw [he]
        · rw [if_neg hc, if_neg (by omega)]
    | authError =>
      have hfail : env.sendOutcome n ≠ .ok := by simp [ho]
      have hred : sendLoop env s c b (r :: rs) n = ⟨[], [], n, some .auth⟩ := by
        simp [sendLoop, ho]
      have hlen : (r :: rs).length = rs.length + 1 := rfl
      rw [hred, hlen, okRun_succ_fail env.sendOutcome n rs.length hfail]
      refine ⟨rfl, rfl, ?_⟩
      rw [if_pos (by omega)]
      simp [ho, toAbort]
    | otherError m =>
      have hfail : env.sendOutcome n ≠ .ok := by simp [ho]
      have hred : sendLoop env s c b (r :: rs) n = ⟨[], [], n, some (.other m)⟩ := by
        simp [sendLoop, ho]
      have hlen : (r :: rs).length = rs.length + 1 := rfl
      rw [hred, hlen, okRun_succ_fail env.sendOutcome n rs.length hfail]
      refine ⟨rfl, rfl, ?_⟩
      rw [if_pos (by omega)]
      simp [ho, toAbort]

theorem groupLoop_spec (env : SmtpEnv) (s c : String) :
    ∀ gs n,
      (groupLoop env s c gs n).sent
        = (flatMsgs s c gs).take (okRun env.sendOutcome n (flatMsgs s c gs).length)
      ∧ (groupLoop env s c gs n).next
        = n + okRun env.sendOutcome n (flatMsgs s c gs).length
      ∧ (groupLoop env s c gs n).abort
        = (if okRun env.sendOutcome n (flatMsgs s c gs).length < (flatMsgs s c gs).length
           then toAbort (env.sendOutcome
             (n + okRun env.sendOutcome n (flatMsgs s c gs).length))
           else none) := by
  intro gs
  induction gs with
  | nil =>
    intro n
    refine ⟨rfl, by simp [groupLoop, flatMsgs, okRun_zero], by simp [groupLoop, flatMsgs, okRun_zero]⟩
  | cons p gs ih =>
    intro n
    obtain ⟨k, g⟩ := p
    by_cases hskip : siteSkipped g = true
    · have hred : groupLoop env s c ((k, g) :: gs) n
          = ⟨siteEntry k :: skipEntry k :: (groupLoop env s c gs n).log,
             (groupLoop env s c gs n).sent,
             (groupLoop env s c gs n).next,
             (groupLoop env s c gs n).abort⟩ := by
        simp [groupLoop, hskip]
      have hflat : flatMsgs s c ((k, g) :: gs) = flatMsgs s c gs := by
        simp [flatMsgs, groupMessages, hskip]
      rw [hred, hflat]
      exact ih n
    · have hskip' : siteSkipped g = false := by simpa using hskip
      have hgm : groupMessages s c g = g.map (buildMessage s c (isAnyoneRegistered g)) := by
        simp [groupMessages, hskip']
      have hflat : flatMsgs s c ((k, g) :: gs)
          = g.map (buildMessage s c (isAnyoneRegistered g)) ++ flatMsgs s c gs := by
        simp [flatMsgs, hgm]
      obtain ⟨hs1, hn1, ha1⟩ := sendLoop_spec env s c (isAnyoneRegistered g) g n
      have hm1 : (g.map (buildMessage s c (isAnyoneRegistered g))).length = g.length := by
        simp
      have hL : (flatMsgs s c ((k, g) :: gs)).length
          = g.length + (flatMsgs s c gs).length := by
        rw [hflat]; simp
      have hsplit := okRun_split env.sendOutcome g.length n (flatMsgs s c gs).length
      by_cases hc1 : okRun env.sendOutcome n g.length < g.length
      · -- the exception is raised inside this group
        have hfail := okRun_fail_at env.sendOutcome g.length n hc1
        have ha1' : (sendLoop env s c (isAnyoneRegistered g) g n).abort
            = toAbort (env.sendOutcome (n + okRun env.sendOutcome n g.length)) := by
          rw [ha1, if_pos hc1]
        obtain ⟨ab, hab⟩ :
            ∃ ab, toAbort (env.sendOutcome (n + okRun env.sendOutcome n g.length)) = some ab := by
          cases hu : env.sendOutcome (n + okRun env.sendOutcome n g.length) with
          | ok => exact absurd hu hfail
          | authError => exact ⟨.auth, rfl⟩
          | otherError m => exact ⟨.other m, rfl⟩
        have hred : groupLoop env s c ((k, g) :: gs) n
            = ⟨siteEntry k :: (sendLoop env s c (isAnyoneRegistered g) g n).log,
               (sendLoop env s c (isAnyoneRegistered g) g n).sent,
               (sendLoop env s c (isAnyoneRegistered g) g n).next,
               some ab⟩ := by
          simp [groupLoop, hskip', ha1'.trans hab]
        have hrun : okRun env.sendOutcome n (flatMsgs s c ((k, g) :: gs)).length
            = okRun env.sendOutcome n g.length := by
          rw [hL, hsplit, if_pos hc1]
        rw [hred, hrun]
        refine ⟨?_, ?_, ?_⟩
        · rw [hs1, hflat, List.take_append_of_le_length (by omega)]
        · exact hn1
        · rw [if_pos (by omega)]
          exact hab.symm
      · -- this group completes; the rest of the run continues at the next index
        have ht1 : okRun env.sendOutcome n g.length = g.length := by
          have := okRun_le env.sendOutcome g.length n
          omega
        have ha1' : (sendLoop env s c (isAnyoneRegistered g) g n).abort = none := by
          rw [ha1, if_neg hc1]
        have hnext : (sendLoop env s c (isAnyoneRegistered g) g n).next = n + g.length := by
          rw [hn1, ht1]
        have hred : groupLoop env s c ((k, g) :: gs) n
            = ⟨siteEntry k :: ((sendLoop env s c (isAnyoneRegistered g) g n).log
                 ++ (groupLoop env s c gs (n + g.length)).log),
               (sendLoop env s c (isAnyoneRegistered g) g n).sent
                 ++ (groupLoop env s c gs (n + g.length)).sent,
               (groupLoop env s c gs (n + g.length)).next,
               (groupLoop env s c gs (n + g.length)).abort⟩ := by
          simp [groupLoop, hskip', ha1', hnext]
        obtain ⟨hs2, hn2, ha2⟩ := ih (n + g.length)
        have hrun : okRun env.sendOutcome n (flatMsgs s c ((k, g) :: gs)).length
            = g.length + okRun env.sendOutcome (n + g.length) (flatMsgs s c gs).length := by
          rw [hL, hsplit, if_neg hc1]
        rw [hred, hrun]
        have hs1' : (sendLoop env s c (isAnyoneRegistered g) g n).sent
            = g.map (buildMessage s c (isAnyoneRegistered g)) := by
          rw [hs1, ht1, ← hm1, List.take_length]
        refine ⟨?_, ?_, ?_⟩
        · rw [hs1', hs2, hflat, ← hm1]
          rw [List.take_append]
        · rw [hn2]; omega
        · rw [ha2]
          by_cases hc2 : okRun env.sendOutcome (n + g.length) (flatMsgs s c gs).length
              < (flatMsgs s c gs).length
          · rw [if_pos hc2, if_pos (by omega)]
            have he : n + g.length + okRun env.sendOutcome (n + g.length) (flatMsgs s c gs).length
                = n + (g.length + okRun env.sendOutcome (n + g.length) (flatMsgs s c gs).length) := by
              omega
            rw [he]
          · rw [if_neg hc2, if_neg (by omega)]

/-! ### Shape of the log -/

theorem sendLoop_log_success (env : SmtpEnv) (s c : String) (b : Bool) :
    ∀ rows n e, e ∈ (sendLoop env s c b rows n).log → e.level = .success := by
  intro rows
  induction rows with
  | nil => intro n e h; simp [sendLoop] at h
  | cons r rs ih =>
    intro n e h
    cases ho : env.sendOutcome n with
    | ok =>
      rw [show sendLoop env s c b (r :: rs) n
          = ⟨sentEntry r.email (buildMessage s c b r).subject
               :: (sendLoop env s c b rs (n + 1)).log,
             buildMessage s c b r :: (sendLoop env s c b rs (n + 1)).sent,
             (sendLoop env s c b rs (n + 1)).next,
             (sendLoop env s c b rs (n + 1)).abort⟩ from by simp [sendLoop, ho]] at h
      rcases List.mem_cons.mp h with h | h
      · rw [h]; rfl
      · exact ih (n + 1) e h
    | authError =>
      rw [show sendLoop env s c b (r :: rs) n = ⟨[], [], n, some .auth⟩ from by
        simp [sendLoop, ho]] at h
      simp at h
    | otherError m =>
      rw [show sendLoop env s c b (r :: rs) n = ⟨[], [], n, some (.other m)⟩ from by
        simp [sendLoop, ho]] at h
      simp at h

theorem groupLoop_log_levels (env : SmtpEnv) (s c : String) :
    ∀ gs n e, e ∈ (groupLoop env s c gs n).log →
      e.level = .markdown ∨ e.level = .warning ∨ e.level = .success := by
  intro gs
  induction gs with
  | nil => intro n e h; simp [groupLoop] at h
  | cons p gs ih =>
    intro n e h
    obtain ⟨k, g⟩ := p
    by_cases hskip : siteSkipped g = true
    · rw [show groupLoop env s c ((k, g) :: gs) n
          = ⟨siteEntry k :: skipEntry k :: (groupLoop env s c gs n).log,
             (groupLoop env s c gs n).sent,
             (groupLoop env s c gs n).next,
             (groupLoop env s c gs n).abort⟩ from by simp [groupLoop, hskip]] at h
      rcases List.mem_cons.mp h with h | h
      · rw [h]; exact Or.inl rfl
      · rcases List.mem_cons.mp h with h | h
        · rw [h]; exact Or.inr (Or.inl rfl)
        · exact ih n e h
    · have hskip' : siteSkipped g = false := by simpa using hskip
      cases habo : (sendLoop env s c (isAnyoneRegistered g) g n).abort with
      | some ab =>
        rw [show groupLoop env s c ((k, g) :: gs) n
            = ⟨siteEntry k :: (sendLoop env s c (isAnyoneRegistered g) g n).log,
               (sendLoop env s c (isAnyoneRegistered g) g n).sent,
               (sendLoop env s c (isAnyoneRegistered g) g n).next,
               some ab⟩ from by simp [groupLoop, hskip', habo]] at h
        rcases List.mem_cons.mp h with h | h
        · rw [h]; exact Or.inl rfl
        · exact Or.inr (Or.inr (sendLoop_log_success env s c (isAnyoneRegistered g) g n e h))
      | none =>
        rw [show groupLoop env s c ((k, g) :: gs) n
            = ⟨siteEntry k :: ((sendLoop env s c (isAnyoneRegistered g) g n).log
                 ++ (groupLoop env s c gs
                      (sendLoop env s c (isAnyoneRegistered g) g n).next).log),
               (sendLoop env s c (isAnyoneRegistered g) g n).sent
                 ++ (groupLoop env s c gs
                      (sendLoop env s c (isAnyoneRegistered g) g n).next).sent,
               (groupLoop env s c gs
                  (sendLoop env s c (isAnyoneRegistered g) g n).next).next,
               (groupLoop env s c gs
                  (sendLoop env s c (isAnyoneRegistered g) g n).next).abort⟩ from by
          simp [groupLoop, hskip', habo]] at h
        rcases List.mem_cons.mp h with h | h
        · rw [h]; exact Or.inl rfl
        · rcases List.mem_append.mp h with h | h
          · exact Or.inr (Or.inr (sendLoop_log_success env s c (isAnyoneRegistered g) g n e h))
          · exact ih _ e h

theorem finished_not_in_tryBody (env : SmtpEnv) (df : List Row) (s c : String) :
    finishedEntry ∉ (tryBody env df s c).1 := by
  intro hmem
  have hne1 : finishedEntry ≠ estabEntry := by decide
  have hne2 : finishedEntry ≠ loginOkEntry := by decide
  have hlevel : finishedEntry.level = .info := rfl
  cases hlo : env.loginOutcome with
  | authError =>
    rw [show tryBody env df s c = ([estabEntry, authErrorEntry], []) from by
      simp [tryBody, hlo]] at hmem
    rcases List.mem_cons.mp hmem with h | h
    · exact hne1 h
    · rcases List.mem_cons.mp h with h | h
      · exact absurd (congrArg LogEntry.level h) (by decide)
      · simp at h
  | otherError m =>
    rw [show tryBody env df s c = ([estabEntry, unexpectedEntry m], []) from by
      simp [tryBody, hlo]] at hmem
    rcases List.mem_cons.mp hmem with h | h
    · exact hne1 h
    · rcases List.mem_cons.mp h with h | h
      · exact absurd (congrArg LogEntry.level h) (by simp [finishedEntry, unexpectedEntry])
      · simp at h
  | ok =>
    cases habo : (groupLoop env s c (groupbySite df) 0).abort with
    | none =>
      rw [show tryBody env df s c
          = (estabEntry :: loginOkEntry :: (groupLoop env s c (groupbySite df) 0).log,
             (groupLoop env s c (groupbySite df) 0).sent) from by
        simp [tryBody, hlo, habo]] at hmem
      rcases List.mem_cons.mp hmem with h | h
      · exact hne1 h
      · rcases List.mem_cons.mp h with h | h
        · exact hne2 h
        · rcases groupLoop_log_levels env s c (groupbySite df) 0 finishedEntry h with
            hl | hl | hl <;> simp [hlevel] at hl
    | some ab =>
      rw [show tryBody env df s c
          = (estabEntry :: loginOkEntry
               :: ((groupLoop env s c (groupbySite df) 0).log ++ [abortEntry ab]),
             (groupLoop env s c (groupbySite df) 0).sent) from by
        simp [tryBody, hlo, habo]] at hmem
      rcases List.mem_cons.mp hmem with h | h
      · exact hne1 h
      · rcases List.mem_cons.mp h with h | h
        · exact hne2 h
        · rcases List.mem_append.mp h with h | h
          · rcases groupLoop_log_levels env s c (groupbySite df) 0 finishedEntry h with
              hl | hl | hl <;> simp [hlevel] at hl
          · rcases List.mem_singleton.mp h with h
            cases ab with
            | auth => exact absurd (congrArg LogEntry.level h) (by decide)
            | other m => exact absurd (congrArg LogEntry.level h) (by simp [finishedEntry, abortEntry, unexpectedEntry])

/-! ### Claim C5 -/

/-- C5: on every execution path — all groups completed, abort on an
authentication failure, abort on any other exception, empty input — the
terminal "process finished" info line is emitted exactly once, as the last
log event of the run. -/
theorem C5_terminal_log (env : SmtpEnv) (df : List Row) (s c : String) :
    (send_automated_emails env df s c).1.getLast? = some finishedEntry
    ∧ (send_automated_emails env df s c).1.count finishedEntry = 1 := by
  constructor
  · show ((tryBody env df s c).1 ++ [finishedEntry]).getLast? = some finishedEntry
    exact List.getLast?_concat _
  · show ((tryBody env df s c).1 ++ [finishedEntry]).count finishedEntry = 1
    rw [List.count_append, List.count_eq_zero.mpr (finished_not_in_tryBody env df s c)]
    simp

/-! ### Claim C4 -/

/-- C4: the routine is a total function of the input and the fault
environment — no exception escapes to the caller; an authentication failure
is logged with the distinct "[AUTHENTICATION ERROR]" line and any other
exception with the "[UNEXPECTED ERROR]" line carrying the error text; after a
failure no further message is sent, and the messages sent before it (a prefix
of the fault-free send sequence) keep their sent status. -/
theorem C4_exception_handling (env : SmtpEnv) (df : List Row) (s c : String) :
    (∃ t, (send_automated_emails env df s c).2 = (allMessages s c df).take t)
    ∧ (env.loginOutcome = .authError →
        (send_automated_emails env df s c).2 = []
        ∧ authErrorEntry ∈ (send_automated_emails env df s c).1)
    ∧ (∀ m, env.loginOutcome = .otherError m →
        (send_automated_emails env df s c).2 = []
        ∧ unexpectedEntry m ∈ (send_automated_emails env df s c).1)
    ∧ (env.loginOutcome = .ok →
        (∀ j, j < (allMessages s c df).length → env.sendOutcome j = .ok) →
        (send_automated_emails env df s c).2 = allMessages s c df)
    ∧ (env.loginOutcome = .ok → ∀ k, k < (allMessages s c df).length →
        (∀ j, j < k → env.sendOutcome j = .ok) → env.sendOutcome k ≠ .ok →
        (send_automated_emails env df s c).2 = (allMessages s c df).take k
        ∧ (env.sendOutcome k = .authError →
            authErrorEntry ∈ (send_automated_emails env df s c).1)
        ∧ (∀ m, env.sendOutcome k = .otherError m →
            unexpectedEntry m ∈ (send_automated_emails env df s c).1)) := by
  obtain ⟨hsent, hnext, habort⟩ := groupLoop_spec env s c (groupbySite df) 0
  have hall : allMessages s c df = flatMsgs s c (groupbySite df) := rfl
  refine ⟨?_, ?_, ?_, ?_, ?_⟩
  · -- the sent list is always a prefix of the fault-free send sequence
    cases hlo : env.loginOutcome with
    | authError =>
      refine ⟨0, ?_⟩
      show (tryBody env df s c).2 = _
      rw [show tryBody env df s c = ([estabEntry, authErrorEntry], []) from by
        simp [tryBody, hlo]]
      simp
    | otherError m =>
      refine ⟨0, ?_⟩
      show (tryBody env df s c).2 = _
      rw [show tryBody env df s c = ([estabEntry, unexpectedEntry m], []) from by
        simp [tryBody, hlo]]
      simp
    | ok =>
      refine ⟨okRun env.sendOutcome 0 (flatMsgs s c (groupbySite df)).length, ?_⟩
      show (tryBody env df s c).2 = _
      cases habo : (groupLoop env s c (groupbySite df) 0).abort with
      | none =>
        rw [show (tryBody env df s c).2 = (groupLoop env s c (groupbySite df) 0).sent from by
          simp [tryBody, hlo, habo]]
        rw [hsent, hall]
      | some ab =>
        rw [show (tryBody env df s c).2 = (groupLoop env s c (groupbySite df) 0).sent from by
          simp [tryBody, hlo, habo]]
        rw [hsent, hall]
  · -- authentication failure at login
    intro hlo
    constructor
    · show (tryBody env df s c).2 = []
      rw [show tryBody env df s c = ([estabEntry, authErrorEntry], []) from by
        simp [tryBody, hlo]]
    · show authErrorEntry ∈ (tryBody env df s c).1 ++ [finishedEntry]
      rw [show tryBody env df s c = ([estabEntry, authErrorEntry], []) from by
        simp [tryBody, hlo]]
      simp
  · -- any other failure at connection or login
    intro m hlo
    constructor
    · show (tryBody env df s c).2 = []
      rw [show tryBody env df s c = ([estabEntry, unexpectedEntry m], []) from by
        simp [tryBody, hlo]]
    · show unexpectedEntry m ∈ (tryBody env df s c).1 ++ [finishedEntry]
      rw [show tryBody env df s c = ([estabEntry, unexpectedEntry m], []) from by
        simp [tryBody, hlo]]
      simp
  · -- a fault-free run sends the whole sequence
    intro hlo hok
    have hT : okRun env.sendOutcome 0 (flatMsgs s c (groupbySite df)).length
        = (flatMsgs s c (groupbySite df)).length := by
      refine okRun_all_ok env.sendOutcome _ 0 ?_
      intro j hj
      have := hok j (by rwa [hall])
      simpa using this
    have habo : (groupLoop env s c (groupbySite df) 0).abort = none := by
      rw [habort, hT, if_neg (by omega)]
    show (tryBody env df s c).2 = _
    rw [show (tryBody env df s c).2 = (groupLoop env s c (groupbySite df) 0).sent from by
      simp [tryBody, hlo, habo]]
    rw [hsent, hT, hall, List.take_length]
  · -- failure at send number k: the first k messages stay sent, the right
    -- except clause logs the right line
    intro hlo k hk hbefore hkfail
    have hT : okRun env.sendOutcome 0 (flatMsgs s c (groupbySite df)).length = k := by
      refine okRun_first_fail env.sendOutcome k _ 0 (by rwa [hall] at hk) ?_ (by simpa using hkfail)
      intro j hj
      simpa using hbefore j hj
    have hsent' : (tryBody env df s c).2 = (allMessages s c df).take k := by
      cases habo : (groupLoop env s c (groupbySite df) 0).abort with
      | none =>
        rw [show (tryBody env df s c).2 = (groupLoop env s c (groupbySite df) 0).sent from by
          simp [tryBody, hlo, habo]]
        rw [hsent, hT, hall]
      | some ab =>
        rw [show (tryBody env df s c).2 = (groupLoop env s c (groupbySite df) 0).sent from by
          simp [tryBody, hlo, habo]]
        rw [hsent, hT, hall]
    have habo' : (groupLoop env s c (groupbySite df) 0).abort
        = toAbort (env.sendOutcome k) := by
      rw [habort, hT, if_pos (by rwa [hall] at hk)]
      norm_num
    refine ⟨hsent', ?_, ?_⟩
    · intro hka
      have habo2 : (groupLoop env s c (groupbySite df) 0).abort = some .auth := by
        rw [habo', hka]; rfl
      show authErrorEntry ∈ (tryBody env df s c).1 ++ [finishedEntry]
      rw [show (tryBody env df s c).1
          = estabEntry :: loginOkEntry
              :: ((groupLoop env s c (groupbySite df) 0).log ++ [abortEntry .auth]) from by
        simp [tryBody, hlo, habo2]]
      simp [abortEntry]
    · intro m hkm
      have habo2 : (groupLoop env s c (groupbySite df) 0).abort = some (.other m) := by
        rw [habo', hkm]; rfl
      show unexpectedEntry m ∈ (tryBody env df s c).1 ++ [finishedEntry]
      rw [show (tryBody env df s c).1
          = estabEntry :: loginOkEntry
              :: ((groupLoop env s c (groupbySite df) 0).log ++ [abortEntry (.other m)]) from by
        simp [tryBody, hlo, habo2]]
      simp [abortEntry]

/-! ### Structure of the site groups -/

theorem groupbySite_snd (df : List Row) (p : String × List Row)
    (hp : p ∈ groupbySite df) :
    p.2 = df.filter (fun r => r.site == some p.1) := by
  obtain ⟨k, _, hk⟩ := List.mem_map.mp hp
  rw [← hk]

theorem mem_group_iff (df : List Row) (p : String × List Row)
    (hp : p ∈ groupbySite df) (r : Row) :
    r ∈ p.2 ↔ r ∈ df ∧ r.site = some p.1 := by
  rw [groupbySite_snd df p hp, List.mem_filter]
  simp

theorem siteSkipped_iff (g : List Row) :
    siteSkipped g = true ↔ ∃ r ∈ g, upperStr (cellStr r.download) = "YES" := by
  simp [siteSkipped, List.any_eq_true]

theorem isAnyoneRegistered_iff (g : List Row) :
    isAnyoneRegistered g = true ↔ ∃ r ∈ g, r.sdaStatus = some "CREATION SUCCESSFUL" := by
  simp [isAnyoneRegistered, List.any_eq_true]

/-! ### The fault-free environment -/

theorem okEnv_okRun (len n : Nat) : okRun okEnv.sendOutcome n len = len :=
  okRun_all_ok okEnv.sendOutcome len n (fun _ _ => rfl)

theorem okEnv_sendLoop_abort (s c : String) (b : Bool) (rows : List Row) (n : Nat) :
    (sendLoop okEnv s c b rows n).abort = none := by
  obtain ⟨_, _, ha⟩ := sendLoop_spec okEnv s c b rows n
  rw [ha, okEnv_okRun, if_neg (by omega)]

theorem okEnv_groupLoop_abort (s c : String) (gs : List (String × List Row)) (n : Nat) :
    (groupLoop okEnv s c gs n).abort = none := by
  obtain ⟨_, _, ha⟩ := groupLoop_spec okEnv s c gs n
  rw [ha, okEnv_okRun, if_neg (by omega)]

theorem groupLoop_skip_mem (s c : String) :
    ∀ (gs : List (String × List Row)) (n : Nat) (k : String) (g : List Row),
      (k, g) ∈ gs → siteSkipped g = true →
      skipEntry k ∈ (groupLoop okEnv s c gs n).log := by
  intro gs
  induction gs with
  | nil => intro n k g h _; simp at h
  | cons p gs ih =>
    intro n k g hmem hsk
    rcases List.mem_cons.mp hmem with h | h
    · subst h
      rw [show groupLoop okEnv s c ((k, g) :: gs) n
          = ⟨siteEntry k :: skipEntry k :: (groupLoop okEnv s c gs n).log,
             (groupLoop okEnv s c gs n).sent,
             (groupLoop okEnv s c gs n).next,
             (groupLoop okEnv s c gs n).abort⟩ from by simp [groupLoop, hsk]]
      simp
    · obtain ⟨k', g'⟩ := p
      by_cases hsk' : siteSkipped g' = true
      · rw [show groupLoop okEnv s c ((k', g') :: gs) n
            = ⟨siteEntry k' :: skipEntry k' :: (groupLoop okEnv s c gs n).log,
               (groupLoop okEnv s c gs n).sent,
               (groupLoop okEnv s c gs n).next,
               (groupLoop okEnv s c gs n).abort⟩ from by simp [groupLoop, hsk']]
        have := ih n k g h hsk
        simp [this]
      · have hsk'' : siteSkipped g' = false := by simpa using hsk'
        have habo := okEnv_sendLoop_abort s c (isAnyoneRegistered g') g' n
        rw [show groupLoop okEnv s c ((k', g') :: gs) n
            = ⟨siteEntry k' :: ((sendLoop okEnv s c (isAnyoneRegistered g') g' n).log
                 ++ (groupLoop okEnv s c gs
                      (sendLoop okEnv s c (isAnyoneRegistered g') g' n).next).log),
               (sendLoop okEnv s c (isAnyoneRegistered g') g' n).sent
                 ++ (groupLoop okEnv s c gs
                      (sendLoop okEnv s c (isAnyoneRegistered g') g' n).next).sent,
               (groupLoop okEnv s c gs
                  (sendLoop okEnv s c (isAnyoneRegistered g') g' n).next).next,
               (groupLoop okEnv s c gs
                  (sendLoop okEnv s c (isAnyoneRegistered g') g' n).next).abort⟩ from by
          simp [groupLoop, hsk'', habo]]
        have := ih ((sendLoop okEnv s c (isAnyoneRegistered g') g' n).next) k g h hsk
        simp [this]

/-! ### Claim C1 -/

/-- C1: for every site group, if any row of the group has a `DOWNLOAD` value
that stringified and uppercased equals "YES", then no outbound message is
produced for any row of that group — the whole group is skipped, with the
warning log line — regardless of the rows' registration statuses. -/
theorem C1_group_skipped (s c : String) (df : List Row) (k : String) (g : List Row)
    (hmem : (k, g) ∈ groupbySite df)
    (hyes : ∃ r ∈ g, upperStr (cellStr r.download) = "YES") :
    groupMessages s c g = []
    ∧ skipEntry k ∈ (send_automated_emails okEnv df s c).1 := by
  have hsk : siteSkipped g = true := (siteSkipped_iff g).mpr hyes
  constructor
  · simp [groupMessages, hsk]
  · have habo := okEnv_groupLoop_abort s c (groupbySite df) 0
    show skipEntry k ∈ (tryBody okEnv df s c).1 ++ [finishedEntry]
    have hlo : okEnv.loginOutcome = SmtpOutcome.ok := rfl
    rw [show (tryBody okEnv df s c).1
        = estabEntry :: loginOkEntry :: (groupLoop okEnv s c (groupbySite df) 0).log from by
      simp [tryBody, hlo, habo]]
    have := groupLoop_skip_mem s c (groupbySite df) 0 k g hmem hsk
    simp [this]

theorem C1_witness :
    groupMessages "s@g.com" "" [rowYesC] = []
    ∧ skipEntry "2" ∈ (send_automated_emails okEnv [rowYesC] "s@g.com" "").1 :=
  C1_group_skipped "s@g.com" "" [rowYesC] "2" [rowYesC] (by decide) (by decide)

/-! ### Claims C2 and C3 -/

/-- C2: in a site group that is not skipped and where at least one row has
`SDA Status` exactly "CREATION SUCCESSFUL", every row produces exactly one
message, sent to that row's `Email`: the reminder-to-download message when
the row's own status equals the literal, the complete-your-registration
message otherwise. -/
theorem C2_mixed_group (s c : String) (df : List Row) (k : String) (g : List Row)
    (hmem : (k, g) ∈ groupbySite df)
    (hnoskip : siteSkipped g = false)
    (hreg : ∃ r ∈ g, r.sdaStatus = some "CREATION SUCCESSFUL") :
    groupMessages s c g = g.map (fun r =>
      if r.sdaStatus = some "CREATION SUCCESSFUL" then
        ⟨s, r.email, mkCc c, reminderSubject, reminderBody⟩
      else
        ⟨s, r.email, mkCc c, completeRegSubject, completeRegBody⟩) := by
  have hany : isAnyoneRegistered g = true := (isAnyoneRegistered_iff g).mpr hreg
  rw [groupMessages, if_neg (by simp [hnoskip])]
  have hfun : buildMessage s c (isAnyoneRegistered g) = fun r =>
      if r.sdaStatus = some "CREATION SUCCESSFUL" then
        (⟨s, r.email, mkCc c, reminderSubject, reminderBody⟩ : Message)
      else
        ⟨s, r.email, mkCc c, completeRegSubject, completeRegBody⟩ := by
    funext r
    by_cases hr : r.sdaStatus = some "CREATION SUCCESSFUL"
    · simp [buildMessage, hany, hr]
    · simp [buildMessage, hany, hr]
  rw [hfun]

theorem C2_witness :
    groupMessages "s@g.com" "cc@y.com" [rowRegA, rowRegB]
      = [rowRegA, rowRegB].map (fun r =>
          if r.sdaStatus = some "CREATION SUCCESSFUL" then
            ⟨"s@g.com", r.email, mkCc "cc@y.com", reminderSubject, reminderBody⟩
          else
            ⟨"s@g.com", r.email, mkCc "cc@y.com", completeRegSubject, completeRegBody⟩) :=
  C2_mixed_group "s@g.com" "cc@y.com" [rowRegA, rowRegB] "1" [rowRegA, rowRegB]
    (by decide) (by decide) (by decide)

/-- C3: in a site group that is not skipped and where no row has `SDA Status`
exactly "CREATION SUCCESSFUL", every row produces exactly one message with
the please-register subject and the fixed invitation body, sent to that
row's `Email`. -/
theorem C3_unregistered_group (s c : String) (df : List Row) (k : String) (g : List Row)
    (hmem : (k, g) ∈ groupbySite df)
    (hnoskip : siteSkipped g = false)
    (hnone : ∀ r ∈ g, r.sdaStatus ≠ some "CREATION SUCCESSFUL") :
    groupMessages s c g
      = g.map (fun r => ⟨s, r.email, mkCc c, inviteSubject, inviteBody⟩) := by
  have hany : isAnyoneRegistered g = false := by
    rw [isAnyoneRegistered]
    refine List.any_eq_false.mpr ?_
    intro r hr
    simpa using hnone r hr
  rw [groupMessages, if_neg (by simp [hnoskip])]
  have hfun : buildMessage s c (isAnyoneRegistered g) = fun r =>
      (⟨s, r.email, mkCc c, inviteSubject, inviteBody⟩ : Message) := by
    funext r
    simp [buildMessage, hany]
  rw [hfun]

theorem C3_witness :
    groupMessages "s@g.com" "" [rowPendD, rowPendE]
      = [rowPendD, rowPendE].map
          (fun r => ⟨"s@g.com", r.email, mkCc "", inviteSubject, inviteBody⟩) :=
  C3_unregistered_group "s@g.com" "" [rowPendD, rowPendE] "3" [rowPendD, rowPendE]
    (by decide) (by decide) (by decide)

/-! ### Claim C7 -/

/-- C7: every message constructed in a run carries the sender identity in
`From` and the row's `Email` in `To`; when the CC string is non-empty every
message carries exactly that CC value, and when it is empty no message has a
`Cc` header. -/
theorem C7_headers (s c : String) (df : List Row) (m : Message)
    (hm : m ∈ allMessages s c df) :
    m.sender = s
    ∧ (c ≠ "" → m.cc = some c)
    ∧ (c = "" → m.cc = none)
    ∧ ∃ r ∈ df, m.recipient = r.email := by
  obtain ⟨p, hp, hmp⟩ := List.mem_flatMap.mp hm
  by_cases hsk : siteSkipped p.2 = true
  · rw [groupMessages, if_pos hsk] at hmp
    simp at hmp
  · have hsk' : siteSkipped p.2 = false := by simpa using hsk
    rw [groupMessages, if_neg (by simp [hsk'])] at hmp
    obtain ⟨r, hr, hbuild⟩ := List.mem_map.mp hmp
    have hrdf : r ∈ df := ((mem_group_iff df p hp r).mp hr).1
    refine ⟨?_, ?_, ?_, r, hrdf, ?_⟩
    · rw [← hbuild]; rfl
    · intro hc
      rw [← hbuild]
      show mkCc c = some c
      rw [mkCc, if_neg hc]
    · intro hc
      rw [← hbuild]
      show mkCc c = none
      rw [mkCc, if_pos hc]
    · rw [← hbuild]; rfl

theorem C7_witness :
    (buildMessage "s@g.com" "cc@y.com" true rowRegA).sender = "s@g.com"
    ∧ ("cc@y.com" ≠ "" → (buildMessage "s@g.com" "cc@y.com" true rowRegA).cc = some "cc@y.com")
    ∧ ("cc@y.com" = "" → (buildMessage "s@g.com" "cc@y.com" true rowRegA).cc = none)
    ∧ ∃ r ∈ [rowRegA, rowRegB],
        (buildMessage "s@g.com" "cc@y.com" true rowRegA).recipient = r.email :=
  C7_headers "s@g.com" "cc@y.com" [rowRegA, rowRegB]
    (buildMessage "s@g.com" "cc@y.com" true rowRegA) (by decide)

/-! ### Claim C8 -/

theorem C8_counterexample :
    specTrim (upperStr (cellStr rowTrim.download)) = "YES"
    ∧ ("7", [rowTrim]) ∈ groupbySite [rowTrim]
    ∧ siteSkipped [rowTrim] = false
    ∧ groupMessages "s@g.com" "" [rowTrim] ≠ []
    ∧ (send_automated_emails okEnv [rowTrim] "s@g.com" "").2 ≠ [] := by
  refine ⟨by decide, by decide, by decide, by decide, ?_⟩
  show (tryBody okEnv [rowTrim] "s@g.com" "").2 ≠ []
  decide

/-- C8 amended: the skip comparison applies no whitespace trimming — a site
group is skipped exactly when some row's `DOWNLOAD` value, stringified and
uppercased with no trim, equals "YES"; a value such as " yes " does not
trigger the skip and the group proceeds to classification. -/
theorem C8_no_trim (df : List Row) (k : String) (g : List Row)
    (hmem : (k, g) ∈ groupbySite df) :
    (siteSkipped g = true ↔ ∃ r ∈ g, upperStr (cellStr r.download) = "YES")
    ∧ (siteSkipped g = false → ∀ s c, groupMessages s c g
        = g.map (buildMessage s c (isAnyoneRegistered g))) := by
  refine ⟨siteSkipped_iff g, ?_⟩
  intro hsk s c
  rw [groupMessages, if_neg (by simp [hsk])]

theorem C8_witness :
    (siteSkipped [rowTrim] = true ↔ ∃ r ∈ [rowTrim], upperStr (cellStr r.download) = "YES")
    ∧ (siteSkipped [rowTrim] = false → ∀ s c, groupMessages s c [rowTrim]
        = [rowTrim].map (buildMessage s c (isAnyoneRegistered [rowTrim]))) :=
  C8_no_trim [rowTrim] "7" [rowTrim] (by decide)

/-! ### Claim C10 -/

/-- C10: a missing `DOWNLOAD` cell is stringified to "nan" (uppercased "NAN")
and so never triggers the skip rule; a group in which no row's stringified,
uppercased `DOWNLOAD` value equals "YES" — in particular one whose `DOWNLOAD`
cells are all missing — is not skipped and proceeds to registration-based
classification. -/
theorem C10_missing_download (s c : String) (df : List Row) (k : String) (g : List Row)
    (hmem : (k, g) ∈ groupbySite df)
    (hno : ∀ r ∈ g, upperStr (cellStr r.download) ≠ "YES") :
    upperStr (cellStr none) = "NAN"
    ∧ siteSkipped g = false
    ∧ groupMessages s c g = g.map (buildMessage s c (isAnyoneRegistered g)) := by
  have hsk : siteSkipped g = false := by
    rw [siteSkipped]
    refine List.any_eq_false.mpr ?_
    intro r hr
    simpa using hno r hr
  exact ⟨by decide, hsk, by rw [groupMessages, if_neg (by simp [hsk])]⟩

theorem C10_witness :
    upperStr (cellStr none) = "NAN"
    ∧ siteSkipped [rowNan] = false
    ∧ groupMessages "s@g.com" "" [rowNan]
        = [rowNan].map (buildMessage "s@g.com" "" (isAnyoneRegistered [rowNan])) :=
  C10_missing_download "s@g.com" "" [rowNan] "9" [rowNan] (by decide) (by decide)

/-! ### Claim C6: the grouping as a partition -/

theorem mem_firstOccur : ∀ (l : List String) (x : String), x ∈ firstOccur l ↔ x ∈ l := by
  intro l
  induction l with
  | nil => intro x; simp [firstOccur]
  | cons k ks ih =>
    intro x
    by_cases hx : x = k
    · subst hx
      simp [firstOccur]
    · simp only [firstOccur, List.mem_cons, List.mem_filter, ih, bne_iff_ne]
      constructor
      · rintro (h | ⟨h, _⟩)
        · exact Or.inl h
        · exact Or.inr h
      · rintro (h | h)
        · exact Or.inl h
        · exact Or.inr ⟨h, hx⟩

theorem firstOccur_nodup : ∀ l : List String, (firstOccur l).Nodup := by
  intro l
  induction l with
  | nil => simp [firstOccur]
  | cons k ks ih =>
    rw [firstOccur]
    refine List.nodup_cons.mpr ⟨?_, List.Nodup.filter _ ih⟩
    intro hk
    have := (List.mem_filter.mp hk).2
    simp at this

theorem siteKeys_nodup (df : List Row) : (siteKeys df).Nodup :=
  (List.perm_insertionSort strLe _).nodup_iff.mpr
    (firstOccur_nodup (df.filterMap (fun r => r.site)))

theorem mem_siteKeys (df : List Row) (k : String) :
    k ∈ siteKeys df ↔ ∃ r ∈ df, r.site = some k := by
  rw [siteKeys, (List.perm_insertionSort strLe _).mem_iff, mem_firstOccur,
    List.mem_filterMap]

theorem filter_drop_other_key :
    ∀ (ks : List String) (df : List Row) (k : String), k ∉ ks →
      ks.flatMap (fun x => df.filter (fun r => r.site == some x))
        = ks.flatMap (fun x =>
            (df.filter (fun r => !(r.site == some k))).filter
              (fun r => r.site == some x)) := by
  intro ks
  induction ks with
  | nil => intro df k _; rfl
  | cons x ks ih =>
    intro df k hk
    have hxk : x ≠ k := fun h => hk (h ▸ List.mem_cons_self x ks)
    have hknotks : k ∉ ks := fun h => hk (List.mem_cons_of_mem x h)
    rw [List.flatMap_cons, List.flatMap_cons, ih df k hknotks]
    congr 1
    rw [List.filter_filter]
    refine List.filter_congr ?_
    intro r _
    by_cases hr : r.site = some x
    · have hrk : (r.site == some k) = false := by
        simp [hr]
        exact hxk
      simp [hr, hrk]
      exact hxk
    · simp [hr]

theorem keyed_partition_perm :
    ∀ (ks : List String) (df : List Row), ks.Nodup →
      (∀ r ∈ df, ∃ k ∈ ks, r.site = some k) →
      List.Perm (ks.flatMap (fun x => df.filter (fun r => r.site == some x))) df := by
  intro ks
  induction ks with
  | nil =>
    intro df _ hcov
    have : df = [] := by
      refine List.eq_nil_iff_forall_not_mem.mpr ?_
      intro r hr
      obtain ⟨k, hk, _⟩ := hcov r hr
      simp at hk
    rw [this]
    rfl
  | cons k ks ih =>
    intro df hnd hcov
    have hknotks : k ∉ ks := (List.nodup_cons.mp hnd).1
    have hndks : ks.Nodup := (List.nodup_cons.mp hnd).2
    rw [List.flatMap_cons, filter_drop_other_key ks df k hknotks]
    have hcov' : ∀ r ∈ df.filter (fun r => !(r.site == some k)), ∃ x ∈ ks, r.site = some x := by
      intro r hr
      obtain ⟨hrdf, hrk⟩ := List.mem_filter.mp hr
      obtain ⟨x, hx, hrx⟩ := hcov r hrdf
      rcases List.mem_cons.mp hx with hxx | hxx
      · exfalso
        rw [hxx] at hrx
        simp [hrx] at hrk
      · exact ⟨x, hxx, hrx⟩
    have hperm := ih (df.filter (fun r => !(r.site == some k))) hndks hcov'
    exact (List.Perm.append_left _ hperm).trans (List.filter_append_perm _ df)

theorem groupbySite_map_fst (df : List Row) :
    (groupbySite df).map Prod.fst = siteKeys df := by
  simp [groupbySite, List.map_map, Function.comp_def]

theorem C6_counterexample :
    noSiteRow ∈ [noSiteRow]
    ∧ (groupbySite [noSiteRow]).flatMap Prod.snd = []
    ∧ ∀ p ∈ groupbySite [noSiteRow], noSiteRow ∉ p.2 := by
  decide

/-- C6 amended: rows with a present `Site Number` are partitioned — each such
row lies in exactly the one group of its own key, the keys are pairwise
distinct, and the groups' rows together are a permutation of the rows whose
`Site Number` is present; a row with a missing `Site Number` is dropped by
`groupby` and lies in no group. -/
theorem C6_partition (df : List Row) :
    ((groupbySite df).map Prod.fst).Nodup
    ∧ (∀ p, p ∈ groupbySite df → ∀ r, r ∈ p.2 ↔ r ∈ df ∧ r.site = some p.1)
    ∧ List.Perm ((groupbySite df).flatMap Prod.snd)
        (df.filter (fun r => r.site.isSome))
    ∧ (∀ p q, p ∈ groupbySite df → q ∈ groupbySite df → p ≠ q →
        ∀ r, r ∈ p.2 → r ∉ q.2) := by
  refine ⟨?_, ?_, ?_, ?_⟩
  · rw [groupbySite_map_fst]
    exact siteKeys_nodup df
  · intro p hp r
    exact mem_group_iff df p hp r
  · have h1 : (groupbySite df).flatMap Prod.snd
        = (siteKeys df).flatMap (fun k => df.filter (fun r => r.site == some k)) := by
      simp [groupbySite, List.flatMap_map]
    have h2 : (fun k => df.filter (fun r => r.site == some k))
        = (fun k => (df.filter (fun r => r.site.isSome)).filter
            (fun r => r.site == some k)) := by
      funext k
      rw [List.filter_filter]
      refine List.filter_congr ?_
      intro r _
      by_cases hr : r.site = some k
      · simp [hr]
      · simp [hr]
    rw [h1, h2]
    refine keyed_partition_perm (siteKeys df) (df.filter (fun r => r.site.isSome))
      (siteKeys_nodup df) ?_
    intro r hr
    obtain ⟨hrdf, hrsome⟩ := List.mem_filter.mp hr
    obtain ⟨k, hk⟩ := Option.isSome_iff_exists.mp (by simpa using hrsome)
    exact ⟨k, (mem_siteKeys df k).mpr ⟨r, hrdf, hk⟩, hk⟩
  · intro p q hp hq hpq r hrp hrq
    have h1 := ((mem_group_iff df p hp r).mp hrp).2
    have h2 := ((mem_group_iff df q hq r).mp hrq).2
    have hfst : p.1 = q.1 := by
      have := h1.symm.trans h2
      exact Option.some.inj this
    have hsnd : p.2 = q.2 := by
      rw [groupbySite_snd df p hp, groupbySite_snd df q hq, hfst]
    exact hpq (Prod.ext hfst hsnd)

theorem C6_witness :
    rowSiteA ∈ ("A", [rowSiteA]).2
      ↔ rowSiteA ∈ [rowSiteB, rowSiteA] ∧ rowSiteA.site = some ("A", [rowSiteA]).1 :=
  (C6_partition [rowSiteB, rowSiteA]).2.1 ("A", [rowSiteA]) (by decide) rowSiteA

/-! ### Claim C9: order of group processing -/

theorem C9_counterexample :
    [rowSiteB, rowSiteA].filterMap (fun r => r.site) = ["B", "A"]
    ∧ firstOccur ["B", "A"] = ["B", "A"]
    ∧ (groupbySite [rowSiteB, rowSiteA]).map Prod.fst = ["A", "B"]
    ∧ (["A", "B"] : List String) ≠ ["B", "A"]
    ∧ ((send_automated_emails okEnv [rowSiteB, rowSiteA] "s@g.com" "").1.filter
        (fun e => decide (e.level = LogLevel.markdown)))
      = [siteEntry "A", siteEntry "B"] := by
  decide

/-- C9 amended: site groups are processed in ascending code-point order of
the `Site Number` key — pandas `groupby` sorts the group keys — which is a
permutation of, but in general differs from, the keys' first-occurrence
order in the input. -/
theorem C9_sorted_order (df : List Row) :
    (groupbySite df).map Prod.fst
      = List.insertionSort strLe (firstOccur (df.filterMap (fun r => r.site)))
    ∧ List.Sorted strLe ((groupbySite df).map Prod.fst)
    ∧ List.Perm ((groupbySite df).map Prod.fst)
        (firstOccur (df.filterMap (fun r => r.site))) := by
  refine ⟨groupbySite_map_fst df, ?_, ?_⟩
  · rw [groupbySite_map_fst]
    exact List.sorted_insertionSort strLe _
  · rw [groupbySite_map_fst]
    exact List.perm_insertionSort strLe _

theorem C4_witness :
    (send_automated_emails boomEnv [rowRegA, rowRegB] "s@g.com" "").2
      = (allMessages "s@g.com" "" [rowRegA, rowRegB]).take 1
    ∧ unexpectedEntry "boom"
        ∈ (send_automated_emails boomEnv [rowRegA, rowRegB] "s@g.com" "").1 := by
  have h := (C4_exception_handling boomEnv [rowRegA, rowRegB] "s@g.com" "").2.2.2.2 rfl 1
    (by decide) (by decide) (by decide)
  exact ⟨h.1, h.2.2 "boom" rfl⟩
